import Mathlib

/-!
Shallow embedding of the CSV normalization-and-validation pipeline of
`src/main.py` (finance-data).

The validator `validate_and_fix_csv` operates, in the source, on the list of
rows produced by `csv.reader` (each row a list of string fields); we embed it
as a function on `List (List String)`.  The rewrite of the artifact on the
success path is modelled by returning the validated row list in the
`Valid` constructor, and `runValidateFix` pairs the boolean return value of
the Python function with the artifact content after the call.
-/

namespace FinanceData

/-- Canonical header tuple, `expected_header` in `validate_and_fix_csv`. -/
def expected_header : List String :=
  ["Date", "Open", "High", "Low", "Close", "Adj Close", "Volume"]

/-- Python `str.strip()` on a character list: drop whitespace from both
ends. -/
def stripChars (l : List Char) : List Char :=
  ((l.dropWhile Char.isWhitespace).reverse.dropWhile Char.isWhitespace).reverse

/-- Python `str.strip()`: remove surrounding whitespace. -/
def strip (s : String) : String := ⟨stripChars s.data⟩

/-- `normalize_header`: trim whitespace from each column of a row. -/
def normalize_header (header_row : List String) : List String :=
  header_row.map strip

/-- Embedding of the compiled regular expression `\d\x7b2\x7d/\d\x7b2\x7d/\d\x7b4\x7d`
under `re.match` on a character list: `re.match` anchors at the start of the
string only, so the pattern must match a 10-character prefix (2 digits, `/`,
2 digits, `/`, 4 digits); anything may follow. -/
def datePrefixMatch : List Char → Bool
  | d1 :: d2 :: s1 :: d3 :: d4 :: s2 :: y1 :: y2 :: y3 :: y4 :: _ =>
    d1.isDigit && d2.isDigit && s1 = '/' && d3.isDigit && d4.isDigit &&
      s2 = '/' && y1.isDigit && y2.isDigit && y3.isDigit && y4.isDigit
  | _ => false

/-- `date_pattern.match(s)` as a Boolean on strings. -/
def matchesDate (s : String) : Bool := datePrefixMatch s.data

/-- Search of `validate_and_fix_csv` lines 45-49: the first row whose
normalized fields equal `expected_header`; returns that row together with
the rows after it (so `lines[header_index:]` is `hdr :: rest`), or `none`
when no row matches. -/
def locateHeader : List (List String) → Option (List String × List (List String))
  | [] => none
  | row :: rest =>
    if normalize_header row = expected_header then some (row, rest)
    else locateHeader rest

/-- Row walk of `validate_and_fix_csv` lines 68-78: skip empty rows; append a
row whose first field matches the date pattern and which has exactly
`len(expected_header)` fields; skip (continue) a date-matching row of any
other length; stop discarding everything from the first row whose first
field does not match the date pattern. -/
def walkRows : List (List String) → List (List String)
  | [] => []
  | [] :: rest => walkRows rest
  | (f :: fs) :: rest =>
    if matchesDate f then
      if (f :: fs).length = expected_header.length then
        (f :: fs) :: walkRows rest
      else walkRows rest
    else []

/-- Reasons a validation can reject, following the `ValidationResult` sum
type (the `IOFailure` reason covers exceptions from file I/O, which the
embedding has no counterpart for). -/
inductive RejectReason
  | HeaderNotFound
  | NoDataAfterHeader
  | NoValidRowsSurvived
  deriving DecidableEq, Repr

/-- Result of validation: the validated row list (header plus surviving data
rows) or a rejection reason. -/
inductive ValidationResult
  | Valid : List (List String) → ValidationResult
  | Rejected : RejectReason → ValidationResult
  deriving DecidableEq, Repr

/-- `validate_and_fix_csv` on the parsed row list: find the header, require
at least one row after it, walk the data rows, require at least one
surviving data row, and return the validated list. -/
def validate_and_fix_csv (lines : List (List String)) : ValidationResult :=
  match locateHeader lines with
  | none => .Rejected .HeaderNotFound
  | some (hdr, rest) =>
    if (hdr :: rest).length < 2 then .Rejected .NoDataAfterHeader
    else
      let valid_data := hdr :: walkRows rest
      if valid_data.length < 2 then .Rejected .NoValidRowsSurvived
      else .Valid valid_data

/-- Observable effect of the Python function: its boolean return value paired
with the artifact content after the call (the file is rewritten with
`valid_data` only on the success path, lines 85-90; every rejection returns
`False` before any write). -/
def runValidateFix (lines : List (List String)) : Bool × List (List String) :=
  match validate_and_fix_csv lines with
  | .Valid d => (true, d)
  | .Rejected _ => (false, lines)

/-- A row that the walk appends: nonempty, first field matches the date
pattern, exactly `len(expected_header)` fields. -/
def isValidDataRow : List String → Bool
  | [] => false
  | f :: fs => matchesDate f && ((f :: fs).length = expected_header.length)

example : matchesDate "02/01/2024" = true := by decide
example : matchesDate "02/01/2024 trailing" = true := by decide
example : matchesDate " 02/01/2024" = false := by decide
example : matchesDate "2024-01-02" = false := by decide
example : normalize_header [" Date ", "Open"] = ["Date", "Open"] := by decide
example :
    validate_and_fix_csv
      [expected_header, ["02/01/2024", "1", "2", "3", "4", "5", "6"]] =
    .Valid [expected_header, ["02/01/2024", "1", "2", "3", "4", "5", "6"]] := by
  decide
example : validate_and_fix_csv [["junk"], expected_header] =
    .Rejected .NoDataAfterHeader := by decide
example : validate_and_fix_csv [["junk"]] = .Rejected .HeaderNotFound := by decide
example :
    validate_and_fix_csv [expected_header, ["garbage row"]] =
    .Rejected .NoValidRowsSurvived := by decide

/-!
Reconciliation model (`main`, lines 124-151).  A pandas `DataFrame` after
the multi-index flattening is a date index together with an ordered list of
named columns; cell values are kept as the strings they serialize to.
-/

/-- A raw provider table: the date index (year, month, day triples, before
`strftime`) and an ordered association list of named columns. -/
structure RawTable where
  dates : List (Nat × Nat × Nat)
  cols : List (String × List String)
  deriving DecidableEq, Repr

/-- Column lookup `name in data.columns`. -/
def hasColumn (name : String) (t : RawTable) : Bool :=
  t.cols.any (fun c => c.1 == name)

/-- Column access `data[name]`: the first column with that label, or `none`
(a `KeyError` in the source). -/
def getColumn (name : String) (t : RawTable) : Option (List String) :=
  (t.cols.find? (fun c => c.1 == name)).map (fun c => c.2)

/-- `data.drop(columns=name)`: remove the labelled column. -/
def dropColumn (name : String) (t : RawTable) : RawTable :=
  { t with cols := t.cols.filter (fun c => c.1 != name) }

/-- Lines 137-139: when `Adj Close` is absent, assign the `Close` column to
a new `Adj Close` column, appended after the existing ones.  `none` models
the `KeyError` raised when `Close` is also absent. -/
def withAdjClose (t : RawTable) : Option RawTable :=
  if hasColumn "Adj Close" t then some t
  else
    match getColumn "Close" t with
    | none => none
    | some c => some { t with cols := t.cols ++ [("Adj Close", c)] }

/-- `expected_cols` of `main` line 142. -/
def expected_cols : List String :=
  ["Open", "High", "Low", "Close", "Adj Close", "Volume"]

/-- `data = data[expected_cols]` (line 143): select the six value columns in
canonical order; `none` models the `KeyError` when one is missing. -/
def selectColumns (t : RawTable) : Option (List (List String)) :=
  match getColumn "Open" t, getColumn "High" t, getColumn "Low" t,
      getColumn "Close" t, getColumn "Adj Close" t, getColumn "Volume" t with
  | some o, some hi, some lo, some c, some a, some v => some [o, hi, lo, c, a, v]
  | _, _, _, _, _, _ => none

/-- Zero-pad a numeral to two digits (`%d`, `%m`). -/
def pad2 (n : Nat) : String :=
  if n < 10 then "0" ++ toString n else toString n

/-- Zero-pad a numeral to four digits (`%Y`). -/
def pad4 (n : Nat) : String :=
  if n < 10 then "000" ++ toString n
  else if n < 100 then "00" ++ toString n
  else if n < 1000 then "0" ++ toString n
  else toString n

/-- `strftime` with format `%d/%m/%Y` on a (year, month, day) triple
(line 128). -/
def fmtDate : Nat × Nat × Nat → String
  | (y, m, d) => pad2 d ++ "/" ++ pad2 m ++ "/" ++ pad4 y

/-- Row view of the reconciled frame as `to_csv` emits it (line 151): for
each index position, the formatted date followed by the six value cells of
that row in canonical column order. -/
def mkRows (dates : List (Nat × Nat × Nat)) (cols : List (List String)) :
    List (List String) :=
  (List.range dates.length).map fun i =>
    fmtDate (dates.getD i (0, 0, 0)) :: cols.map (fun c => c.getD i "")

/-- Schema reconciliation, `main` lines 134-143: drop `Price` if present,
synthesize `Adj Close` from `Close` if absent, reorder to the canonical
column order; `none` models the `KeyError` paths caught by the per-symbol
handler. -/
def reconcile (t : RawTable) : Option (List (List String)) :=
  let t1 := dropColumn "Price" t
  match withAdjClose t1 with
  | none => none
  | some t2 =>
    match selectColumns t2 with
    | none => none
    | some cs => some (mkRows t2.dates cs)

/-- Minimal CSV quoting of `csv.writer`: a field is quoted when it contains
the delimiter, the quote character, or a line-break character. -/
def needsQuote (s : String) : Bool :=
  s.data.any (fun c => c = ',' || c = '"' || c = '\n' || c = '\r')

/-- Render one field, doubling embedded quote characters when quoting. -/
def quoteField (s : String) : String :=
  if needsQuote s then "\"" ++ s.replace "\"" "\"\"" ++ "\"" else s

/-- Render one row as a CSV line. -/
def csvLine (r : List String) : String :=
  String.intercalate "," (r.map quoteField)

/-- Outcome of one iteration of the symbol loop in `main`. -/
inductive PipelineResult
  | skippedEmpty
  | reconcileError
  | rejected : RejectReason → PipelineResult
  | published : List (List String) → PipelineResult
  deriving DecidableEq, Repr

/-- The parsed content of the artifact written by `to_csv` (line 151): the
canonical header (from the `Date` index label plus `expected_cols`) followed
by the reconciled rows. -/
def writtenArtifact (t : RawTable) : Option (List (List String)) :=
  (reconcile t).map (fun rows => expected_header :: rows)

/-- One iteration of the symbol loop (lines 114-199): skip an empty fetch,
contain a reconciliation error, validate the written artifact, and reach the
publisher steps (5-8) only when validation succeeded. -/
def runSymbol (t : RawTable) : PipelineResult :=
  if t.dates.isEmpty then .skippedEmpty
  else
    match writtenArtifact t with
    | none => .reconcileError
    | some art =>
      match validate_and_fix_csv art with
      | .Rejected r => .rejected r
      | .Valid d => .published d

example :
    reconcile
      { dates := [(2024, 1, 2)],
        cols := [("Price", ["QLD"]), ("Close", ["450.1"]), ("High", ["452.0"]),
          ("Low", ["449.0"]), ("Open", ["451.5"]), ("Volume", ["1000000"])] } =
    some [["02/01/2024", "451.5", "452.0", "449.0", "450.1", "450.1",
      "1000000"]] := by decide
example :
    csvLine ["02/01/2024", "451.5", "452.0", "449.0", "450.1", "450.1",
      "1000000"] =
    "02/01/2024,451.5,452.0,449.0,450.1,450.1,1000000" := by decide

/-- The sample provider table of the reconciliation scenario: columns
`[Price, Close, High, Low, Open, Volume]`, one row dated 2024-01-02. -/
def sampleRaw : RawTable :=
  { dates := [(2024, 1, 2)],
    cols := [("Price", ["QLD"]), ("Close", ["450.1"]), ("High", ["452.0"]),
      ("Low", ["449.0"]), ("Open", ["451.5"]), ("Volume", ["1000000"])] }

/-- The canonical row the sample table must reconcile to. -/
def sampleRow : List String :=
  ["02/01/2024", "451.5", "452.0", "449.0", "450.1", "450.1", "1000000"]

/-! Helper lemmas about the validator. -/

theorem normalize_header_expected :
    normalize_header expected_header = expected_header := by decide

theorem locateHeader_cons_expected (rest : List (List String)) :
    locateHeader (expected_header :: rest) = some (expected_header, rest) := by
  simp [locateHeader, normalize_header_expected]

theorem walkRows_cons_valid (f : String) (fs : List String)
    (rest : List (List String)) (h : isValidDataRow (f :: fs) = true) :
    walkRows ((f :: fs) :: rest) = (f :: fs) :: walkRows rest := by
  simp only [isValidDataRow, Bool.and_eq_true, decide_eq_true_eq] at h
  simp [walkRows, h.1, h.2]

theorem walkRows_cons_skip (f : String) (fs : List String)
    (rest : List (List String)) (hd : matchesDate f = true)
    (hn : (f :: fs).length ≠ expected_header.length) :
    walkRows ((f :: fs) :: rest) = walkRows rest := by
  have hn' : fs.length + 1 ≠ expected_header.length := by simpa using hn
  simp [walkRows, hd, hn']

theorem walkRows_cons_stop (f : String) (fs : List String)
    (rest : List (List String)) (hd : matchesDate f = false) :
    walkRows ((f :: fs) :: rest) = [] := by
  simp [walkRows, hd]

theorem valid_data_row_shape (r : List String) (h : isValidDataRow r = true) :
    ∃ f fs, r = f :: fs := by
  cases r with
  | nil => simp [isValidDataRow] at h
  | cons f fs => exact ⟨f, fs, rfl⟩

/-- C1: with the canonical header followed by a valid row `r1`, a row whose
first field does not match the date pattern, and a valid row `r3`,
validation returns `Valid` with exactly the header and `r1`: the non-date
row hard-stops the scan and discards everything after it. -/
theorem c1_hard_stop_truncation (r1 : List String) (x : String)
    (xs : List String) (r3 : List String)
    (h1 : isValidDataRow r1 = true) (hx : matchesDate x = false)
    (h3 : isValidDataRow r3 = true) :
    validate_and_fix_csv [expected_header, r1, x :: xs, r3] =
      .Valid [expected_header, r1] := by
  obtain ⟨f, fs, rfl⟩ := valid_data_row_shape r1 h1
  have hw : walkRows [f :: fs, x :: xs, r3] = [f :: fs] := by
    rw [walkRows_cons_valid _ _ _ h1, walkRows_cons_stop _ _ _ hx]
  simp [validate_and_fix_csv, locateHeader_cons_expected, hw]

theorem c1_witness :
    validate_and_fix_csv
      [expected_header, ["02/01/2024", "1", "2", "3", "4", "5", "6"],
        ["Ticker", "QLD"], ["03/01/2024", "1", "2", "3", "4", "5", "6"]] =
      .Valid [expected_header, ["02/01/2024", "1", "2", "3", "4", "5", "6"]] :=
  c1_hard_stop_truncation _ _ _ _ (by decide) (by decide) (by decide)

/-- C2: with the canonical header followed by a valid row `r1`, a
date-matching row of a wrong field count, and a valid row `r3`, validation
returns `Valid` with the header, `r1` and `r3`: the malformed row is dropped
individually and the scan continues. -/
theorem c2_per_row_skip (r1 : List String) (x : String) (xs : List String)
    (r3 : List String)
    (h1 : isValidDataRow r1 = true) (hx : matchesDate x = true)
    (hn : (x :: xs).length ≠ expected_header.length)
    (h3 : isValidDataRow r3 = true) :
    validate_and_fix_csv [expected_header, r1, x :: xs, r3] =
      .Valid [expected_header, r1, r3] := by
  obtain ⟨f, fs, rfl⟩ := valid_data_row_shape r1 h1
  obtain ⟨g, gs, rfl⟩ := valid_data_row_shape r3 h3
  have hw : walkRows [f :: fs, x :: xs, g :: gs] = [f :: fs, g :: gs] := by
    rw [walkRows_cons_valid _ _ _ h1, walkRows_cons_skip _ _ _ hx hn,
      walkRows_cons_valid _ _ _ h3]
    rfl
  simp [validate_and_fix_csv, locateHeader_cons_expected, hw]

theorem c2_witness :
    validate_and_fix_csv
      [expected_header, ["02/01/2024", "1", "2", "3", "4", "5", "6"],
        ["03/01/2024", "1", "2"], ["04/01/2024", "1", "2", "3", "4", "5", "6"]] =
      .Valid [expected_header, ["02/01/2024", "1", "2", "3", "4", "5", "6"],
        ["04/01/2024", "1", "2", "3", "4", "5", "6"]] :=
  c2_per_row_skip _ _ _ _ (by decide) (by decide) (by decide) (by decide)

/-- C3: whenever some line of the input normalizes to the canonical header,
validation does not reject with `HeaderNotFound`; the header chosen is the
first such line, so everything before it is dropped from the suffix the
repair works on. -/
theorem c3_header_skip (pre post : List (List String)) (hrow : List String)
    (hmatch : normalize_header hrow = expected_header)
    (hpre : ∀ r ∈ pre, normalize_header r ≠ expected_header) :
    validate_and_fix_csv (pre ++ hrow :: post) ≠ .Rejected .HeaderNotFound ∧
    locateHeader (pre ++ hrow :: post) = some (hrow, post) := by
  have hloc : locateHeader (pre ++ hrow :: post) = some (hrow, post) := by
    induction pre with
    | nil => simp [locateHeader, hmatch]
    | cons p ps ih =>
      have hp : normalize_header p ≠ expected_header := hpre p (by simp)
      rw [List.cons_append, locateHeader, if_neg hp]
      exact ih fun r hr => hpre r (by simp [hr])
  refine ⟨fun hcontra => ?_, hloc⟩
  simp only [validate_and_fix_csv, hloc] at hcontra
  split at hcontra
  · exact absurd hcontra (by simp)
  · split at hcontra
    · exact absurd hcontra (by simp)
    · exact absurd hcontra (by simp)

theorem c3_witness :
    (validate_and_fix_csv
        [["stray", "fragment"],
          ["Date ", "Open", "High", "Low", "Close", "Adj Close", "Volume"],
          ["02/01/2024", "1", "2", "3", "4", "5", "6"]] ≠
      .Rejected .HeaderNotFound) ∧
    locateHeader
        [["stray", "fragment"],
          ["Date ", "Open", "High", "Low", "Close", "Adj Close", "Volume"],
          ["02/01/2024", "1", "2", "3", "4", "5", "6"]] =
      some (["Date ", "Open", "High", "Low", "Close", "Adj Close", "Volume"],
        [["02/01/2024", "1", "2", "3", "4", "5", "6"]]) :=
  c3_header_skip [["stray", "fragment"]] _ _ (by decide) (by decide)

/-- The date pattern matched by `re.match` accepts any string beginning with
the 10-character shape `dd/mm/yyyy`, whatever follows. -/
theorem matchesDate_of_leading_date (ws : String) :
    matchesDate ("02/01/2024" ++ ws) = true := by
  have h : ("02/01/2024" ++ ws).data =
      '0' :: '2' :: '/' :: '0' :: '1' :: '/' :: '2' :: '0' :: '2' :: '4' ::
        ws.data := rfl
  rw [matchesDate, h]
  rfl

/-- A first field beginning with whitespace never matches: `re.match`
anchors at the start of the string. -/
theorem matchesDate_false_of_leading_space (ws : String) :
    matchesDate (" 02/01/2024" ++ ws) = false := by
  have h : (" 02/01/2024" ++ ws).data =
      ' ' :: '0' :: '2' :: '/' :: '0' :: '1' :: '/' :: '2' :: '0' :: '2' ::
        '4' :: ws.data := rfl
  rw [matchesDate, h]
  rfl

/-- C4 as stated is false: fields are trimmed only for header matching, not
before the data-row date check, so a data row whose first field is a
dd/mm/yyyy date preceded by whitespace is not recognized — it hard-stops the
scan and validation rejects instead of keeping the row. -/
theorem c4_counterexample :
    validate_and_fix_csv
      [expected_header, [" 02/01/2024", "1", "2", "3", "4", "5", "6"]] =
      .Rejected .NoValidRowsSurvived := by decide

/-- C4 amended: trimming is applied only when matching the header row.  The
data-row check matches the raw field 0 against the date pattern anchored at
the start only, so a date carrying trailing characters (e.g. whitespace) is
still recognized, while one preceded by whitespace is not — the row acts as
a hard stop and, alone after the header, leaves no surviving data. -/
theorem c4_trim_header_only (ws : String) (fs : List String)
    (hlen : fs.length = 6) :
    validate_and_fix_csv [expected_header, ("02/01/2024" ++ ws) :: fs] =
      .Valid [expected_header, ("02/01/2024" ++ ws) :: fs] ∧
    validate_and_fix_csv [expected_header, (" 02/01/2024" ++ ws) :: fs] =
      .Rejected .NoValidRowsSurvived := by
  constructor
  · have hvalid : isValidDataRow (("02/01/2024" ++ ws) :: fs) = true := by
      simp [isValidDataRow, matchesDate_of_leading_date, hlen]
      decide
    have hw : walkRows [("02/01/2024" ++ ws) :: fs] =
        [("02/01/2024" ++ ws) :: fs] := by
      rw [walkRows_cons_valid _ _ _ hvalid]
      rfl
    simp [validate_and_fix_csv, locateHeader_cons_expected, hw]
  · have hw : walkRows [(" 02/01/2024" ++ ws) :: fs] = [] :=
      walkRows_cons_stop _ _ _ (matchesDate_false_of_leading_space ws)
    simp [validate_and_fix_csv, locateHeader_cons_expected, hw]

theorem c4_witness :
    (validate_and_fix_csv
        [expected_header, ["02/01/2024 ", "1", "2", "3", "4", "5", "6"]] =
      .Valid [expected_header, ["02/01/2024 ", "1", "2", "3", "4", "5", "6"]]) ∧
    (validate_and_fix_csv
        [expected_header, [" 02/01/2024 ", "1", "2", "3", "4", "5", "6"]] =
      .Rejected .NoValidRowsSurvived) :=
  c4_trim_header_only " " ["1", "2", "3", "4", "5", "6"] (by decide)

/-- C5: once the canonical header is located (`lines[header_index:]` being
`hdr :: rest`), validation rejects exactly when fewer than 2 rows remain
from the header onward (`NoDataAfterHeader`) or the validated list after the
walk has fewer than 2 entries (`NoValidRowsSurvived`); in every other case
it returns `Valid` with the validated list. -/
theorem c5_rejection_conditions (lines : List (List String))
    (hdr : List String) (rest : List (List String))
    (h : locateHeader lines = some (hdr, rest)) :
    ((hdr :: rest).length < 2 →
      validate_and_fix_csv lines = .Rejected .NoDataAfterHeader) ∧
    (2 ≤ (hdr :: rest).length → (hdr :: walkRows rest).length < 2 →
      validate_and_fix_csv lines = .Rejected .NoValidRowsSurvived) ∧
    (2 ≤ (hdr :: rest).length → 2 ≤ (hdr :: walkRows rest).length →
      validate_and_fix_csv lines = .Valid (hdr :: walkRows rest)) := by
  refine ⟨fun h1 => ?_, fun h1 h2 => ?_, fun h1 h2 => ?_⟩ <;>
    simp only [validate_and_fix_csv, h]
  · rw [if_pos h1]
  · rw [if_neg (by omega), if_pos h2]
  · rw [if_neg (by omega), if_neg (by omega)]

theorem c5_witness :
    (([expected_header,
        (["02/01/2024", "1", "2", "3", "4", "5", "6"] : List String)] :
          List (List String)).length < 2 →
      validate_and_fix_csv
          [expected_header, ["02/01/2024", "1", "2", "3", "4", "5", "6"]] =
        .Rejected .NoDataAfterHeader) ∧
    (2 ≤ ([expected_header,
        (["02/01/2024", "1", "2", "3", "4", "5", "6"] : List String)] :
          List (List String)).length →
      (expected_header ::
          walkRows [["02/01/2024", "1", "2", "3", "4", "5", "6"]]).length < 2 →
      validate_and_fix_csv
          [expected_header, ["02/01/2024", "1", "2", "3", "4", "5", "6"]] =
        .Rejected .NoValidRowsSurvived) ∧
    (2 ≤ ([expected_header,
        (["02/01/2024", "1", "2", "3", "4", "5", "6"] : List String)] :
          List (List String)).length →
      2 ≤ (expected_header ::
          walkRows [["02/01/2024", "1", "2", "3", "4", "5", "6"]]).length →
      validate_and_fix_csv
          [expected_header, ["02/01/2024", "1", "2", "3", "4", "5", "6"]] =
        .Valid (expected_header ::
          walkRows [["02/01/2024", "1", "2", "3", "4", "5", "6"]])) :=
  c5_rejection_conditions _ expected_header
    [["02/01/2024", "1", "2", "3", "4", "5", "6"]] (by decide)

/-- Every row the walk keeps satisfies the data-row predicate. -/
theorem walkRows_sound (l : List (List String)) :
    ∀ r ∈ walkRows l, isValidDataRow r = true := by
  induction l with
  | nil => simp [walkRows]
  | cons row rest ih =>
    cases row with
    | nil => simpa [walkRows] using ih
    | cons f fs =>
      by_cases hd : matchesDate f
      · by_cases hl : (f :: fs).length = expected_header.length
        · intro r hr
          rw [walkRows_cons_valid _ _ _ (by simp [isValidDataRow, hd, hl])]
            at hr
          rcases List.mem_cons.mp hr with rfl | hr'
          · simp [isValidDataRow, hd, hl]
          · exact ih r hr'
        · intro r hr
          rw [walkRows_cons_skip _ _ _ hd hl] at hr
          exact ih r hr
      · intro r hr
        rw [walkRows_cons_stop _ _ _ (by simpa using hd)] at hr
        simp at hr

/-- C6: every accepted validation rewrites the artifact with rows that all
(after the header) have exactly 7 fields and a first field matching the
date pattern. -/
theorem c6_output_invariant (lines d : List (List String))
    (h : validate_and_fix_csv lines = .Valid d) :
    ∀ r ∈ d.tail, r.length = 7 ∧ matchesDate (r.headD "") = true := by
  cases hloc : locateHeader lines with
  | none => simp [validate_and_fix_csv, hloc] at h
  | some p =>
    obtain ⟨hdr, rest⟩ := p
    simp only [validate_and_fix_csv, hloc] at h
    split at h
    · exact absurd h (by simp)
    · split at h
      · exact absurd h (by simp)
      · injection h with h'
        subst h'
        intro r hr
        have hvalid := walkRows_sound rest r (by simpa using hr)
        obtain ⟨f, fs, rfl⟩ := valid_data_row_shape r hvalid
        simp only [isValidDataRow, Bool.and_eq_true, decide_eq_true_eq]
          at hvalid
        refine ⟨by simpa [expected_header] using hvalid.2, ?_⟩
        simpa using hvalid.1

theorem c6_witness :
    (["02/01/2024 ", "1", "2", "3", "4", "5", "6"] : List String).length = 7 ∧
    matchesDate
        ((["02/01/2024 ", "1", "2", "3", "4", "5", "6"] :
          List String).headD "") = true :=
  c6_output_invariant
    [["old", "junk"], expected_header,
      ["02/01/2024 ", "1", "2", "3", "4", "5", "6"], ["EOF"]]
    [expected_header, ["02/01/2024 ", "1", "2", "3", "4", "5", "6"]]
    (by decide) ["02/01/2024 ", "1", "2", "3", "4", "5", "6"] (by decide)

/-! Helper lemmas about the reconciliation model. -/

theorem hasColumn_dropColumn_false (n m : String) (t : RawTable)
    (h : hasColumn n t = false) : hasColumn n (dropColumn m t) = false := by
  cases hh : hasColumn n (dropColumn m t) with
  | false => rfl
  | true =>
    exfalso
    simp only [hasColumn, dropColumn, List.any_eq_true, List.mem_filter] at hh
    obtain ⟨c, ⟨hc, _⟩, hcn⟩ := hh
    have ht : hasColumn n t = true := by
      simp only [hasColumn, List.any_eq_true]
      exact ⟨c, hc, hcn⟩
    rw [h] at ht
    exact Bool.noConfusion ht

theorem find?_cols_none (n : String) (t : RawTable)
    (h : hasColumn n t = false) :
    t.cols.find? (fun c => c.1 == n) = none := by
  rw [List.find?_eq_none]
  intro x hx hpx
  have ht : hasColumn n t = true := by
    simp only [hasColumn, List.any_eq_true]
    exact ⟨x, hx, hpx⟩
  rw [h] at ht
  exact Bool.noConfusion ht

theorem getColumn_extend_found (t : RawTable) (n : String) (v : List String)
    (c : String × List String) (h : getColumn n t = some v) :
    getColumn n { t with cols := t.cols ++ [c] } = some v := by
  simp only [getColumn] at h ⊢
  rw [List.find?_append]
  cases hf : t.cols.find? (fun c => c.1 == n) with
  | none => rw [hf] at h; simp at h
  | some c0 =>
    rw [hf] at h
    simpa using h

theorem getColumn_extend_absent (t : RawTable) (n : String) (v : List String)
    (h : hasColumn n t = false) :
    getColumn n { t with cols := t.cols ++ [(n, v)] } = some v := by
  simp only [getColumn]
  rw [List.find?_append, find?_cols_none n t h]
  simp [List.find?]

theorem selectColumns_close_adj (t : RawTable) (cs : List (List String))
    (cv : List String)
    (hc : getColumn "Close" t = some cv) (ha : getColumn "Adj Close" t = some cv)
    (h : selectColumns t = some cs) :
    ∃ o hi lo v, cs = [o, hi, lo, cv, cv, v] := by
  simp only [selectColumns, hc, ha] at h
  cases ho : getColumn "Open" t with
  | none => rw [ho] at h; simp at h
  | some o =>
    rw [ho] at h
    cases hhi : getColumn "High" t with
    | none => rw [hhi] at h; simp at h
    | some hi =>
      rw [hhi] at h
      cases hlo : getColumn "Low" t with
      | none => rw [hlo] at h; simp at h
      | some lo =>
        rw [hlo] at h
        cases hv : getColumn "Volume" t with
        | none => rw [hv] at h; simp at h
        | some v =>
          rw [hv] at h
          simp only [Option.some.injEq] at h
          exact ⟨o, hi, lo, v, h.symm⟩

/-- C7: when the provider table has a `Close` column and no `Adj Close`
column, every row of the reconciled table carries in the `Adj Close`
position (field 5) exactly the value of its `Close` position (field 4). -/
theorem c7_adj_close_fallback (t : RawTable) (rows : List (List String))
    (hne : t.dates ≠ [])
    (hclose : hasColumn "Close" t = true)
    (hadj : hasColumn "Adj Close" t = false)
    (h : reconcile t = some rows) :
    ∀ r ∈ rows, r.get? 5 = r.get? 4 := by
  have hadj1 : hasColumn "Adj Close" (dropColumn "Price" t) = false :=
    hasColumn_dropColumn_false _ _ _ hadj
  simp only [reconcile] at h
  cases hw : withAdjClose (dropColumn "Price" t) with
  | none => rw [hw] at h; simp at h
  | some t2 =>
    simp only [hw] at h
    rw [withAdjClose, if_neg (by simp [hadj1])] at hw
    cases hcv : getColumn "Close" (dropColumn "Price" t) with
    | none => rw [hcv] at hw; simp at hw
    | some cv =>
      simp only [hcv, Option.some.injEq] at hw
      have hc2 : getColumn "Close" t2 = some cv := by
        rw [← hw]
        exact getColumn_extend_found _ _ _ _ hcv
      have ha2 : getColumn "Adj Close" t2 = some cv := by
        rw [← hw]
        exact getColumn_extend_absent _ _ _ hadj1
      cases hsel : selectColumns t2 with
      | none => simp only [hsel] at h; exact absurd h (by simp)
      | some cs =>
        simp only [hsel, Option.some.injEq] at h
        obtain ⟨o, hi, lo, v, rfl⟩ :=
          selectColumns_close_adj t2 cs cv hc2 ha2 hsel
        intro r hr
        rw [← h] at hr
        simp only [mkRows, List.mem_map] at hr
        obtain ⟨i, -, rfl⟩ := hr
        rfl

theorem c7_witness :
    (["02/01/2024", "451.5", "452.0", "449.0", "450.1", "450.1", "1000000"] :
      List String).get? 5 =
    (["02/01/2024", "451.5", "452.0", "449.0", "450.1", "450.1", "1000000"] :
      List String).get? 4 :=
  c7_adj_close_fallback sampleRaw [sampleRow] (by decide) (by decide)
    (by decide) (by decide) sampleRow (by decide)

/-- C8: the sample table with columns `[Price, Close, High, Low, Open,
Volume]` and the single 2024-01-02 row reconciles to the canonical-order
row, and that row serializes to the expected CSV line: `Price` is dropped,
`Adj Close` is copied from `Close`, the columns are reordered, and the date
is rendered dd/mm/yyyy. -/
theorem c8_sample_scenario :
    reconcile sampleRaw = some [sampleRow] ∧
    csvLine sampleRow =
      "02/01/2024,451.5,452.0,449.0,450.1,450.1,1000000" := by
  constructor
  · decide
  · decide

/-- C9: a symbol iteration reaches the publish steps only when validation of
the written artifact returned `Valid`; whenever it returned `Rejected`, the
outcome of the iteration is never `published`. -/
theorem c9_no_publish_on_rejection (t : RawTable)
    (art : List (List String)) (r : RejectReason)
    (hart : writtenArtifact t = some art)
    (hrej : validate_and_fix_csv art = .Rejected r) :
    ∀ d, runSymbol t ≠ .published d := by
  intro d hc
  rw [runSymbol] at hc
  by_cases he : t.dates.isEmpty
  · rw [if_pos he] at hc
    exact absurd hc (by simp)
  · rw [if_neg he] at hc
    simp only [hart, hrej] at hc
    exact absurd hc (by simp)

theorem c9_witness :
    runSymbol { dates := [], cols := [("Open", []), ("High", []), ("Low", []),
      ("Close", []), ("Volume", [])] } ≠ .published [] :=
  c9_no_publish_on_rejection _ [expected_header] .NoDataAfterHeader
    (by decide) (by decide) []

/-- C10: a structural rejection returns `False` with the artifact content
untouched; the artifact is rewritten only on the success path. -/
theorem c10_no_write_on_rejection (lines : List (List String))
    (r : RejectReason) (h : validate_and_fix_csv lines = .Rejected r) :
    runValidateFix lines = (false, lines) := by
  rw [runValidateFix, h]

theorem c10_witness :
    runValidateFix [["partial", "fragment"]] =
      (false, [["partial", "fragment"]]) :=
  c10_no_write_on_rejection _ .HeaderNotFound (by decide)

end FinanceData
